import Mathlib

set_option linter.unusedVariables false

/-!
Shallow embedding of the viadot_fork extraction sources:
`src/viadot/sources/velux_club.py` (the `VeluxClub` class: `build_query` and
`get_response`) and `src/viadot/sources/sql_server.py` (`SQLServer.exists`).

Python values crossing the JSON boundary are modelled by the `Json` type;
pandas DataFrame construction, transposition and concatenation are modelled
symbolically by the free term algebra `Frame` (the pandas semantics is an
external collaborator; only which operation is applied to which payload is
the program's own logic).  Python exceptions are modelled by the `PyErr`
type and `Except`.  The network (`requests.request`) is a parameter
`net : String → Json`; the list of requested URLs is returned alongside the
outcome so that "before any network call" is expressible as an empty trace.
-/

namespace Viadot

/-- JSON-decoded Python values (`response.json()`). -/
inductive Json where
  | null : Json
  | str : String → Json
  | num : Int → Json
  | arr : List Json → Json
  | obj : List (String × Json) → Json

/-- Python `x != None` specialised to decoded JSON: `None` is only equal to
`None` itself. -/
def Json.isNull : Json → Bool
  | .null => true
  | _ => false

/-- Python exceptions that the embedded code can raise, including the custom
error classes of `velux_club.py`. -/
inductive PyErr where
  | sourceNOK : String → PyErr
  | historicalTooOld : String → PyErr
  | datesNOK : String → PyErr
  | valueError : PyErr
  | keyError : String → PyErr
  | typeError : PyErr
  | indexError : PyErr
  | attributeError : PyErr
  | loopFuel : PyErr
deriving DecidableEq, Repr

/-- Symbolic pandas computation: `pd.DataFrame(x)`, `df.T`, `pd.concat`. -/
inductive Frame where
  | ofJson : Json → Frame
  | transpose : Frame → Frame
  | concat : Frame → Frame → Frame

/-- Does `needle` start `hay`? (used to model Python `in` on strings). -/
def leadsWith : List Char → List Char → Bool
  | [], _ => true
  | _ :: _, [] => false
  | a :: as, b :: bs => a = b && leadsWith as bs

/-- Does `needle` occur contiguously inside `hay`? -/
def occursIn (needle : List Char) : List Char → Bool
  | [] => needle.isEmpty
  | c :: cs => leadsWith needle (c :: cs) || occursIn needle cs

/-- Python `needle in hay` for strings: contiguous substring containment. -/
def pyInStr (needle hay : String) : Bool :=
  occursIn needle.toList hay.toList

/-- Python `str(x)` as used by f-string interpolation of a JSON value. -/
def pyStr : Json → String
  | .null => "None"
  | .str s => s
  | .num n => toString n
  | .arr _ => "[...]"
  | .obj _ => "{...}"

/-- Python dict subscription `j[k]`: `KeyError` on a missing key,
`TypeError` when `j` is a list subscripted with a string. -/
def pyGet (j : Json) (k : String) : Except PyErr Json :=
  match j with
  | .obj kvs =>
    match kvs.lookup k with
    | some v => .ok v
    | none => .error (.keyError k)
  | .arr _ => .error .typeError
  | _ => .error .typeError

/-- Splits a character list on the hyphen character. -/
def splitDash : List Char → List Char → List (List Char)
  | [], acc => [acc.reverse]
  | c :: cs, acc =>
    if c = '-' then acc.reverse :: splitDash cs []
    else splitDash cs (c :: acc)

def digitVal (c : Char) : Nat := c.toNat - 48

def allDigits (l : List Char) : Bool := l.all (fun c => c.isDigit)

def natOfDigits (l : List Char) : Nat :=
  l.foldl (fun a c => a * 10 + digitVal c) 0

/-- Day count of a month, with Gregorian leap years (as `datetime` uses). -/
def daysInMonth (y m : Nat) : Nat :=
  if m = 2 then
    if (y % 4 = 0 && decide (y % 100 ≠ 0)) || y % 400 = 0 then 29 else 28
  else if m = 4 || m = 6 || m = 9 || m = 11 then 30 else 31

/-- A calendar date as (year, month, day). -/
abbrev Date := Nat × Nat × Nat

/-- `datetime.strptime(s, "%Y-%m-%d")`: four year digits, one or two month
and day digits separated by hyphens, validated as a real calendar date;
`none` models the `ValueError` raised on any other input. -/
def strptimeYmd (s : String) : Option Date :=
  match splitDash s.toList [] with
  | [yl, ml, dl] =>
    if yl.length = 4 && allDigits yl
        && (ml.length = 1 || ml.length = 2) && allDigits ml
        && (dl.length = 1 || dl.length = 2) && allDigits dl then
      let y := natOfDigits yl
      let m := natOfDigits ml
      let d := natOfDigits dl
      if 1 ≤ m && m ≤ 12 && 1 ≤ d && d ≤ daysInMonth y m then
        some (y, m, d)
      else none
    else none
  | _ => none

/-- Strict calendar order on dates: `(a - b).days < 0` for midnight
datetimes is exactly lexicographic strict order. -/
def dateLt (a b : Date) : Bool :=
  decide (a.1 < b.1)
    || (decide (a.1 = b.1)
        && (decide (a.2.1 < b.2.1)
            || (decide (a.2.1 = b.2.1) && decide (a.2.2 < b.2.2))))

/-- `VeluxClub.API_URL`. -/
def API_URL : String := "https://api.club.velux.com/api/v1/datalake/"

/-- `VeluxClub.build_query(source, from_date, to_date, api_url, region)`.
Returns either a request URL or one of the two error-message strings; the
Python code returns these messages instead of raising.  Note the survey
branch tests `source in "survey"`, Python substring containment. -/
def build_query (source from_date to_date api_url region : String) : String :=
  if source = "jobs" || source = "product" || source = "company" then
    if from_date = "" || to_date = "" then
      "Introduce a 'FROM Date' and 'To Date'"
    else
      api_url ++ source ++ "?from=" ++ from_date ++ "&to=" ++ to_date
        ++ "&region&limit=100"
  else if pyInStr source "survey" then
    api_url ++ source ++ "?language=en&type=question"
  else
    "pick one these sources: jobs, product, company, survey"

/-- The `keys_list` computation of `get_response` (lines 128-133): keys of a
dict, keys of the first element of a list (raising `IndexError` on an empty
list and `AttributeError` when that element is not a dict), `[]` otherwise. -/
def keysList : Json → Except PyErr (List String)
  | .obj kvs => .ok (kvs.map Prod.fst)
  | .arr [] => .error .indexError
  | .arr (.obj kvs :: _) => .ok (kvs.map Prod.fst)
  | .arr (_ :: _) => .error .attributeError
  | _ => .ok []

/-- URL of a follow-up page request (line 140): the `next_page_url` value
with `from`, `to`, a bare `region` token and `limit` appended.  The region
value itself is never interpolated. -/
def nextUrl (npu : Json) (from_date to_date : String) : String :=
  pyStr npu ++ "&from=" ++ from_date ++ "&to=" ++ to_date ++ "&region&limit=100"

/-- The `while response["next_page_url"] != None` loop of `get_response`
(lines 139-147), with explicit state: the current decoded response, the
accumulated frame and the trace of URLs requested so far.  `fuel` bounds
the iteration count; `PyErr.loopFuel` marks exhaustion and never occurs in
a terminating run. -/
def pagesLoop (net : String → Json) (source from_date to_date : String) :
    Nat → Json → Frame → List String → List String × Except PyErr Frame
  | 0, _, _, trace => (trace, .error .loopFuel)
  | fuel + 1, response, df, trace =>
    match pyGet response "next_page_url" with
    | .error e => (trace, .error e)
    | .ok npu =>
      if npu.isNull then (trace, .ok df)
      else
        let url := nextUrl npu from_date to_date
        let resp2 := net url
        match pyGet resp2 "data" with
        | .error e => (trace ++ [url], .error e)
        | .ok d =>
          let page := Frame.ofJson d
          let page := if source = "product" then Frame.transpose page else page
          pagesLoop net source from_date to_date fuel resp2
            (Frame.concat df page) (trace ++ [url])

/-- `VeluxClub.get_response(source, from_date, to_date, region)`.  Returns
the list of URLs requested (the network trace) together with the outcome:
the symbolic DataFrame or the exception raised.  `net` stands for
`requests.request("GET", url).json()`. -/
def get_response (net : String → Json) (fuel : Nat)
    (source from_date to_date region : String) :
    List String × Except PyErr Frame :=
  if (source = "jobs" || source = "product" || source = "company"
      || source = "survey") = false then
    ([], .error (.sourceNOK "The source has to be: jobs, product, company or survey"))
  else
    match strptimeYmd from_date with
    | none => ([], .error .valueError)
    | some fromD =>
      if dateLt fromD (2022, 3, 22) then
        ([], .error (.historicalTooOld "from_date cannot be earlier than 2023-03-22!!"))
      else
        match strptimeYmd to_date with
        | none => ([], .error .valueError)
        | some toD =>
          if dateLt toD fromD then
            ([], .error (.datesNOK "to_date cannot be earlier than from_date!"))
          else
            let url := build_query source from_date to_date API_URL region
            let response := net url
            match keysList response with
            | .error e => ([url], .error e)
            | .ok keys =>
              if keys.contains "data" then
                match pyGet response "data" with
                | .error e => ([url], .error e)
                | .ok d =>
                  pagesLoop net source from_date to_date fuel response
                    (Frame.ofJson d) [url]
              else
                ([url], .ok (Frame.ofJson response))

/-- `SQLServer.DEFAULT_SCHEMA`. -/
def DEFAULT_SCHEMA : String := "dbo"

/-- A catalog row as delivered by the external `run` collaborator. -/
abbrev Row := List String

/-- The interpolated metadata query text of `SQLServer.exists`. -/
def listTableInfoQuery (schema table : String) : String :=
  "\n            SELECT *\n            FROM sys.tables t\n            JOIN sys.schemas s\n                ON t.schema_id = s.schema_id\n            WHERE s.name = '" ++ schema ++ "' AND t.name = '" ++ table
    ++ "'\n        "

/-- The `if not schema: schema = self.DEFAULT_SCHEMA` fallback: a falsy
schema (absent `None` or the empty string) becomes `DEFAULT_SCHEMA`. -/
def resolvedSchema : Option String → String
  | none => DEFAULT_SCHEMA
  | some s => if s = "" then DEFAULT_SCHEMA else s

/-- `SQLServer.exists(table, schema)`: the result is `bool(...)` of the row
list returned by the external `run` collaborator for the interpolated
metadata query. -/
def SQLServer_exists (run : String → List Row) (table : String)
    (schema : Option String) : Bool :=
  !(run (listTableInfoQuery (resolvedSchema schema) table)).isEmpty

/-! ### Shape predicates on symbolic frames -/

/-- Every page of a concatenated frame carries the transpose correction:
each concatenated leaf is `Frame.transpose (Frame.ofJson _)`. -/
def allPagesTransposed : Frame → Bool
  | .concat a b => allPagesTransposed a && allPagesTransposed b
  | .transpose (.ofJson _) => true
  | _ => false

/-- The shape `get_response` actually produces for the product category: a
raw (untransposed) first page with every later page transposed before
concatenation. -/
def productShape : Frame → Bool
  | .ofJson _ => true
  | .concat a (.transpose (.ofJson _)) => productShape a
  | _ => false

/-! ### Error-classification lemmas -/

theorem pyGet_not_historical (j : Json) (k : String) (m : String) :
    pyGet j k ≠ .error (.historicalTooOld m) := by
  cases j with
  | obj kvs =>
    simp only [pyGet]
    cases kvs.lookup k <;> simp
  | _ => simp [pyGet]

theorem keysList_not_historical (j : Json) (m : String) :
    keysList j ≠ .error (.historicalTooOld m) := by
  cases j with
  | arr l =>
    cases l with
    | nil => simp [keysList]
    | cons x xs => cases x <;> simp [keysList]
  | _ => simp [keysList]

theorem pagesLoop_not_historical (net : String → Json)
    (source from_date to_date : String) :
    ∀ fuel resp df tr tr' m,
      pagesLoop net source from_date to_date fuel resp df tr
        ≠ (tr', .error (.historicalTooOld m)) := by
  intro fuel
  induction fuel with
  | zero => intro resp df tr tr' m; simp [pagesLoop]
  | succ n ih =>
    intro resp df tr tr' m
    simp only [pagesLoop]
    cases hg : pyGet resp "next_page_url" with
    | error e =>
      simp only []
      intro h
      have : e = .historicalTooOld m := by
        have := congrArg Prod.snd h
        simpa using this
      exact pyGet_not_historical resp "next_page_url" m (this ▸ hg)
    | ok npu =>
      simp only []
      by_cases hn : npu.isNull
      · simp [hn]
      · simp only [hn, if_neg, Bool.false_eq_true, not_false_eq_true, if_false]
        cases hd : pyGet (net (nextUrl npu from_date to_date)) "data" with
        | error e =>
          simp only []
          intro h
          have : e = .historicalTooOld m := by
            have := congrArg Prod.snd h
            simpa using this
          exact pyGet_not_historical _ "data" m (this ▸ hd)
        | ok d => simp only []; exact ih _ _ _ _ _

/-! ### Concrete fixtures: small fake networks used to evaluate the
embedded extraction on explicit inputs -/

/-- A network whose every response decodes to JSON `null`. -/
def netNull : String → Json := fun _ => .null

/-- A network whose every response decodes to the empty JSON array. -/
def netArrNil : String → Json := fun _ => .arr []

/-- The follow-up URL the pagination loop builds from a `next_page_url`
value `"P2"` and the window 2022-03-22 .. 2022-03-23. -/
def urlP2 : String := nextUrl (.str "P2") "2022-03-22" "2022-03-23"

def d1C3 : Json := .arr [.obj [("a", .num 1)]]

def d2C3 : Json := .arr [.obj [("a", .num 2)]]

/-- First product page: a `data` payload plus a `next_page_url` cursor. -/
def r1C3 : Json := .obj [("data", d1C3), ("next_page_url", .str "P2")]

/-- Second product page: a `data` payload and a `null` cursor. -/
def r2C3 : Json := .obj [("data", d2C3), ("next_page_url", .null)]

/-- Two-page fake network for the product category. -/
def netC3 (u : String) : Json := if u = urlP2 then r2C3 else r1C3

/-- First jobs page: a `data` payload plus a `next_page_url` cursor. -/
def r1C4 : Json := .obj [("data", .arr []), ("next_page_url", .str "P2")]

/-- Second jobs page: a `data` payload but no `next_page_url` key. -/
def r2C4 : Json := .obj [("data", .arr [])]

/-- Fake network whose second page lacks the `next_page_url` key. -/
def netC4 (u : String) : Json := if u = urlP2 then r2C4 else r1C4

/-- C1: for every category in jobs, product, company and every window with
at least one empty bound, `build_query` produces the missing-date-range
error message "Introduce a 'FROM Date' and 'To Date'" (the code signals
this failure by returning the message string), never a request URL. -/
theorem C1_missing_window_bound
    (source from_date to_date api_url region : String)
    (hs : source = "jobs" ∨ source = "product" ∨ source = "company")
    (hd : from_date = "" ∨ to_date = "") :
    build_query source from_date to_date api_url region =
      "Introduce a 'FROM Date' and 'To Date'" := by
  rcases hs with h | h | h <;> subst h <;>
    rcases hd with h | h <;> subst h <;> simp [build_query]

theorem C1_witness :
    build_query "jobs" "" "2022-03-23" API_URL "null" =
      "Introduce a 'FROM Date' and 'To Date'" :=
  C1_missing_window_bound "jobs" "" "2022-03-23" API_URL "null"
    (Or.inl rfl) (Or.inl rfl)

/-- C2: evaluation of `build_query` at the category `"urv"`, which is not
one of jobs, product, company, survey but is a contiguous substring of
`"survey"`: the `source in "survey"` membership test mis-routes it into the
survey branch, so `build_query` returns a survey-style request URL instead
of the unsupported-source error message the claim requires. -/
theorem C2_substring_misroute :
    build_query "urv" "2022-03-22" "2022-03-23" API_URL "null" =
      API_URL ++ "urv?language=en&type=question" ∧
    build_query "urv" "2022-03-22" "2022-03-23" API_URL "null" ≠
      "pick one these sources: jobs, product, company, survey" :=
  ⟨rfl, by decide⟩

/-- C8: for the survey category `build_query` always succeeds with the
fixed request carrying only the language and type filters; the result is a
constant in the window and region arguments, so the date filters and the
region value are absent from it. -/
theorem C8_survey_fixed_query (from_date to_date api_url region : String) :
    build_query "survey" from_date to_date api_url region =
      api_url ++ "survey" ++ "?language=en&type=question" := rfl

/-- C9: `SQLServer.exists` returns true iff the metadata query for the
resolved schema and table returns at least one row (false on an empty
result), and an omitted (`none`) or falsy (empty-string) schema resolves to
the default schema "dbo". -/
theorem C9_exists_metadata (run : String → List Row) (table : String)
    (schema : Option String) :
    (SQLServer_exists run table schema = true ↔
      run (listTableInfoQuery (resolvedSchema schema) table) ≠ []) ∧
    resolvedSchema none = "dbo" ∧
    resolvedSchema (some "") = "dbo" ∧
    SQLServer_exists run table none = SQLServer_exists run table (some "dbo") := by
  refine ⟨?_, rfl, rfl, rfl⟩
  simp [SQLServer_exists]

/-- C7: for every category outside jobs, product, company, survey, the
extraction entry point raises the unsupported-source error as its first
validation step: the result is the `Source_NOK` error with an empty network
trace, for every network, fuel and (possibly unparseable) date argument. -/
theorem C7_unknown_source_first (net : String → Json) (fuel : Nat)
    (source from_date to_date region : String)
    (h1 : source ≠ "jobs") (h2 : source ≠ "product")
    (h3 : source ≠ "company") (h4 : source ≠ "survey") :
    get_response net fuel source from_date to_date region =
      ([], .error (.sourceNOK
        "The source has to be: jobs, product, company or survey")) := by
  simp [get_response, h1, h2, h3, h4]

theorem C7_witness :
    get_response netNull 0 "urv" "" "" "null" =
      ([], .error (.sourceNOK
        "The source has to be: jobs, product, company or survey")) :=
  C7_unknown_source_first netNull 0 "urv" "" "" "null"
    (by decide) (by decide) (by decide) (by decide)

theorem historical_requires_old_from (net : String → Json) (fuel : Nat)
    (source from_date to_date region : String) (tr : List String) (m : String)
    (h : get_response net fuel source from_date to_date region =
      (tr, .error (.historicalTooOld m))) :
    ∃ fromD, strptimeYmd from_date = some fromD ∧
      dateLt fromD (2022, 3, 22) = true := by
  simp only [get_response] at h
  split at h
  · simp at h
  · split at h
    · simp at h
    · rename_i fromD heq
      split at h
      · rename_i hc
        exact ⟨fromD, heq, hc⟩
      · split at h
        · simp at h
        · split at h
          · simp at h
          · split at h
            · rename_i e heq2
              simp only [Prod.mk.injEq, Except.error.injEq] at h
              exact absurd (h.2 ▸ heq2) (keysList_not_historical _ m)
            · split at h
              · split at h
                · rename_i e heq3
                  simp only [Prod.mk.injEq, Except.error.injEq] at h
                  exact absurd (h.2 ▸ heq3) (pyGet_not_historical _ "data" m)
                · exact absurd h
                    (pagesLoop_not_historical net source from_date to_date
                      fuel _ _ _ tr m)
              · simp at h

/-- C5: for any category in the known set and any `from_date` that parses
to a calendar date strictly earlier than the floor "2022-03-22", the
extraction entry point raises the `Historical_Too_Old` error with an empty
network trace (before any network call), for every network; and with
`from_date` equal to the floor date the extraction never produces the
historical-range error. -/
theorem C5_historical_floor :
    (∀ (net : String → Json) (fuel : Nat)
        (source from_date to_date region : String) (fromD : Date),
      (source = "jobs" ∨ source = "product" ∨ source = "company"
        ∨ source = "survey") →
      strptimeYmd from_date = some fromD →
      dateLt fromD (2022, 3, 22) = true →
      get_response net fuel source from_date to_date region =
        ([], .error (.historicalTooOld
          "from_date cannot be earlier than 2023-03-22!!"))) ∧
    (∀ (net : String → Json) (fuel : Nat) (source to_date region : String)
        (tr : List String) (m : String),
      get_response net fuel source "2022-03-22" to_date region ≠
        (tr, .error (.historicalTooOld m))) := by
  constructor
  · intro net fuel source from_date to_date region fromD hs hf hlt
    rcases hs with h | h | h | h <;> subst h <;> simp [get_response, hf, hlt]
  · intro net fuel source to_date region tr m h
    obtain ⟨fromD, hf, hlt⟩ :=
      historical_requires_old_from net fuel source "2022-03-22" to_date
        region tr m h
    rw [show strptimeYmd "2022-03-22" = some ((2022 : Nat), 3, 22) from rfl]
      at hf
    cases Option.some.inj hf
    exact absurd hlt (by decide)

theorem C5_witness :
    get_response netNull 1 "jobs" "2020-01-01" "" "null" =
      ([], .error (.historicalTooOld
        "from_date cannot be earlier than 2023-03-22!!")) :=
  C5_historical_floor.1 netNull 1 "jobs" "2020-01-01" "" "null"
    (2020, 1, 1) (Or.inl rfl) rfl rfl

/-- C6 counterexample: with `to_date = ""`, which does not parse as a
calendar date, the extraction entry point fails with the `strptime` parse
error (Python `ValueError`), which is not the `Dates_NOK`
(invalid-date-range) error the claim asserts for every unparseable
`to_date`. -/
theorem C6_counterexample :
    get_response netNull 1 "jobs" "2022-03-22" "" "null" =
      ([], .error .valueError) ∧
    PyErr.valueError ≠
      PyErr.datesNOK "to_date cannot be earlier than from_date!" :=
  ⟨rfl, by decide⟩

/-- C6 amended: before any network call, an unparseable `to_date` fails
with the date-parse error (`ValueError`), and a `to_date` that parses to a
date strictly earlier than `from_date` fails with the invalid-date-range
error (`Dates_NOK`); in particular from 2022-04-01 to 2022-03-01 yields the
invalid-date-range error. -/
theorem C6_to_date_validation :
    (∀ (net : String → Json) (fuel : Nat)
        (source from_date to_date region : String) (fromD : Date),
      (source = "jobs" ∨ source = "product" ∨ source = "company"
        ∨ source = "survey") →
      strptimeYmd from_date = some fromD →
      dateLt fromD (2022, 3, 22) = false →
      strptimeYmd to_date = none →
      get_response net fuel source from_date to_date region =
        ([], .error .valueError)) ∧
    (∀ (net : String → Json) (fuel : Nat)
        (source from_date to_date region : String) (fromD toD : Date),
      (source = "jobs" ∨ source = "product" ∨ source = "company"
        ∨ source = "survey") →
      strptimeYmd from_date = some fromD →
      dateLt fromD (2022, 3, 22) = false →
      strptimeYmd to_date = some toD →
      dateLt toD fromD = true →
      get_response net fuel source from_date to_date region =
        ([], .error (.datesNOK "to_date cannot be earlier than from_date!"))) := by
  constructor
  · intro net fuel source from_date to_date region fromD hs hf hfl ht
    rcases hs with h | h | h | h <;> subst h <;>
      simp [get_response, hf, hfl, ht]
  · intro net fuel source from_date to_date region fromD toD hs hf hfl ht htl
    rcases hs with h | h | h | h <;> subst h <;>
      simp [get_response, hf, hfl, ht, htl]

theorem C6_witness :
    get_response netNull 1 "jobs" "2022-04-01" "2022-03-01" "null" =
      ([], .error (.datesNOK "to_date cannot be earlier than from_date!")) :=
  C6_to_date_validation.2 netNull 1 "jobs" "2022-04-01" "2022-03-01" "null"
    (2022, 4, 1) (2022, 3, 1) (Or.inl rfl) rfl rfl rfl rfl

/-- C10: after validation passes, a first response decoding to the empty
JSON array makes `get_response` raise `IndexError` from the
`response[0].keys()` indexing (rather than return an empty zero-row
table), while a non-empty array whose first element is an object without a
"data" key is returned whole as a single terminal page. -/
theorem C10_list_payload (net : String → Json) (fuel : Nat)
    (source from_date to_date region : String) (fromD toD : Date)
    (hs : source = "jobs" ∨ source = "product" ∨ source = "company"
      ∨ source = "survey")
    (hf : strptimeYmd from_date = some fromD)
    (hfl : dateLt fromD (2022, 3, 22) = false)
    (ht : strptimeYmd to_date = some toD)
    (htl : dateLt toD fromD = false) :
    (net (build_query source from_date to_date API_URL region) = .arr [] →
      get_response net fuel source from_date to_date region =
        ([build_query source from_date to_date API_URL region],
         .error .indexError)) ∧
    (∀ (kvs : List (String × Json)) (rest : List Json),
      net (build_query source from_date to_date API_URL region) =
        .arr (.obj kvs :: rest) →
      (kvs.map Prod.fst).contains "data" = false →
      get_response net fuel source from_date to_date region =
        ([build_query source from_date to_date API_URL region],
         .ok (.ofJson (.arr (.obj kvs :: rest))))) := by
  constructor
  · intro hnet
    rcases hs with h | h | h | h <;> subst h <;>
      simp [get_response, hf, hfl, ht, htl, hnet, keysList]
  · intro kvs rest hnet hkeys
    simp at hkeys
    rcases hs with h | h | h | h <;> subst h <;>
      simp [get_response, hf, hfl, ht, htl, hnet, keysList] <;>
      intro x hx <;> exact absurd hx (hkeys x)

theorem C10_witness :
    get_response netArrNil 1 "jobs" "2022-03-22" "2022-03-22" "null" =
      ([build_query "jobs" "2022-03-22" "2022-03-22" API_URL "null"],
       .error .indexError) :=
  (C10_list_payload netArrNil 1 "jobs" "2022-03-22" "2022-03-22" "null"
    (2022, 3, 22) (2022, 3, 22) (Or.inl rfl) rfl rfl rfl rfl).1 rfl

theorem pagesLoop_productShape (net : String → Json)
    (from_date to_date : String) :
    ∀ (fuel : Nat) (resp : Json) (df : Frame) (tr tr' : List String) (F : Frame),
      productShape df = true →
      pagesLoop net "product" from_date to_date fuel resp df tr = (tr', .ok F) →
      productShape F = true := by
  intro fuel
  induction fuel with
  | zero => intro resp df tr tr' F hdf h; simp [pagesLoop] at h
  | succ n ih =>
    intro resp df tr tr' F hdf h
    simp only [pagesLoop] at h
    split at h
    · simp at h
    · split at h
      · simp only [Prod.mk.injEq, Except.ok.injEq] at h
        exact h.2 ▸ hdf
      · split at h
        · simp at h
        · simp only [if_true, ite_true] at h
          refine ih _ _ _ _ _ ?_ h
          simpa [productShape] using hdf

/-- C3 counterexample: a two-page product extraction in which the second
page is transposed but the first is concatenated raw, so not every page of
the result carries the transpose correction. -/
theorem C3_counterexample :
    get_response netC3 3 "product" "2022-03-22" "2022-03-23" "null" =
      ([build_query "product" "2022-03-22" "2022-03-23" API_URL "null", urlP2],
       .ok (.concat (.ofJson d1C3) (.transpose (.ofJson d2C3)))) ∧
    allPagesTransposed
      (.concat (.ofJson d1C3) (.transpose (.ofJson d2C3))) = false :=
  ⟨rfl, rfl⟩

/-- C3 amended: for the product category, every successful extraction
result has the shape of a raw (untransposed) first page with every later
page transposed before it is concatenated; the transpose correction is
applied only to pages after the first. -/
theorem C3_product_transpose (net : String → Json) (fuel : Nat)
    (from_date to_date region : String) (tr : List String) (F : Frame)
    (h : get_response net fuel "product" from_date to_date region =
      (tr, .ok F)) :
    productShape F = true := by
  simp only [get_response] at h
  repeat' split at h
  all_goals try (simp at h; try exact h.2 ▸ rfl)
  all_goals refine pagesLoop_productShape net from_date to_date fuel _ _ _ _ _ ?_ h
  all_goals rfl

theorem C3_witness :
    productShape (.concat (.ofJson d1C3) (.transpose (.ofJson d2C3))) = true :=
  C3_product_transpose netC3 3 "2022-03-22" "2022-03-23" "null"
    [build_query "product" "2022-03-22" "2022-03-23" API_URL "null", urlP2]
    (.concat (.ofJson d1C3) (.transpose (.ofJson d2C3))) rfl

/-- C4 counterexample: a run whose second response exposes "data" but no
"next_page_url" key raises `KeyError` instead of ending pagination, and the
follow-up request URL built for region "PL" never contains the region
value (only a bare `region` token), so the region filter is not
re-attached. -/
theorem C4_counterexample :
    get_response netC4 3 "jobs" "2022-03-22" "2022-03-23" "PL" =
      ([build_query "jobs" "2022-03-22" "2022-03-23" API_URL "PL", urlP2],
       .error (.keyError "next_page_url")) ∧
    pyInStr "PL" urlP2 = false :=
  ⟨rfl, rfl⟩

/-- C4 amended: when a response exposes a "data" key its value is the page
content; pagination follows "next_page_url", appending the original
`from` and `to` parameters (plus a bare `region` token — the region value
itself is never re-attached) to each follow-up request, and terminates when
the field is null; a response from which the "next_page_url" key is absent
raises `KeyError` rather than ending pagination. -/
theorem C4_pagination :
    (∀ (net : String → Json) (source from_date to_date : String) (fuel : Nat)
        (resp : Json) (df : Frame) (tr : List String),
      pyGet resp "next_page_url" = .ok .null →
      pagesLoop net source from_date to_date (fuel + 1) resp df tr =
        (tr, .ok df)) ∧
    (∀ (net : String → Json) (source from_date to_date : String) (fuel : Nat)
        (resp : Json) (df : Frame) (tr : List String),
      pyGet resp "next_page_url" = .error (.keyError "next_page_url") →
      pagesLoop net source from_date to_date (fuel + 1) resp df tr =
        (tr, .error (.keyError "next_page_url"))) ∧
    (∀ (net : String → Json) (source from_date to_date : String) (fuel : Nat)
        (resp : Json) (df : Frame) (tr : List String) (u : String) (d : Json),
      pyGet resp "next_page_url" = .ok (.str u) →
      pyGet (net (nextUrl (.str u) from_date to_date)) "data" = .ok d →
      pagesLoop net source from_date to_date (fuel + 1) resp df tr =
        pagesLoop net source from_date to_date fuel
          (net (nextUrl (.str u) from_date to_date))
          (.concat df
            (if source = "product" then .transpose (.ofJson d) else .ofJson d))
          (tr ++ [nextUrl (.str u) from_date to_date])) ∧
    (∀ (from_date to_date u : String),
      nextUrl (.str u) from_date to_date =
        u ++ "&from=" ++ from_date ++ "&to=" ++ to_date ++ "&region&limit=100") := by
  refine ⟨?_, ?_, ?_, fun _ _ _ => rfl⟩
  · intro net source from_date to_date fuel resp df tr hnpu
    simp [pagesLoop, hnpu, Json.isNull]
  · intro net source from_date to_date fuel resp df tr hnpu
    simp [pagesLoop, hnpu]
  · intro net source from_date to_date fuel resp df tr u d hnpu hd
    simp [pagesLoop, hnpu, hd, Json.isNull]

theorem C4_witness :
    pagesLoop netNull "jobs" "2022-03-22" "2022-03-23" 1 r2C3
      (.ofJson d1C3) [] = ([], .ok (.ofJson d1C3)) :=
  C4_pagination.1 netNull "jobs" "2022-03-22" "2022-03-23" 0 r2C3
    (.ofJson d1C3) [] rfl

end Viadot
